import Mathlib

/-!
Shallow embedding of `src/server.js` — a single-file HTTP todo service.

Modelling conventions:
* JSON values are the inductive `Json`.  JavaScript strict equality `===`
  between two separately parsed JSON values is `Json.seq`: structural on the
  primitives, `false` on arrays/objects (which compare by reference in JS, and
  every comparison in this server is between values from distinct parses).
* JavaScript truthiness of a JSON value is `Json.truthy`; `undefined`
  (a missing object key) is represented by `Option.none`.  Destructuring a
  payload that parsed to JSON `null` throws a TypeError in JS; the create
  and update handlers model that throw, routed through the server's catch
  block, as a 500 with no write.
* `url.searchParams.get` returns `String | null`, modelled as `Option String`;
  `paramToJson` is the value it denotes when compared with `===` against a
  parsed-JSON field (absent param is JS `null`, which `===`-equals JSON null).
* Each handler is a pure function from its inputs (query params, parsed
  payload, the collection loaded by `readTodos`, and the environment-dependent
  outputs of `Date.now`/`Math.random`/`toLocaleString`, passed as parameters)
  to a `HandlerResult` recording the HTTP status, the response payload, and
  the argument of `writeTodos` when it is called (`none` = no write).
* `JSON.parse` is an abstract parameter `jp : String → Option Json`
  (`none` = the parse throws a SyntaxError).
-/

namespace VanillaTodo

/-- JSON values, as produced by `JSON.parse`. -/
inductive Json where
  | null
  | bool (b : Bool)
  | num (n : Int)
  | str (s : String)
  | arr (elems : List Json)
  | obj (fields : List (String × Json))
deriving Repr

/-- JavaScript truthiness of a JSON value: `null`, `false`, `0` and `""` are
falsy; every array and object is truthy. -/
def Json.truthy : Json → Bool
  | .null => false
  | .bool b => b
  | .num n => n != 0
  | .str s => s != ""
  | .arr _ => true
  | .obj _ => true

/-- JavaScript strict equality `===` between two independently parsed JSON
values: structural on primitives, `false` on arrays/objects (reference
equality of distinct references). -/
def Json.seq : Json → Json → Bool
  | .null, .null => true
  | .bool a, .bool b => a == b
  | .num a, .num b => a == b
  | .str a, .str b => a == b
  | _, _ => false

/-- Property access `payload.key` on a parsed non-null JSON value: `none`
models JS `undefined` (key absent, or a primitive/array receiver, which has
no such property).  Destructuring a `null` receiver instead throws a
TypeError; the handlers that destructure their payload guard for that case
with `Json.isNull` before using this access. -/
def Json.getKey : Json → String → Option Json
  | .obj fields, k => fields.lookup k
  | _, _ => none

/-- Whether a parsed JSON value is `null` — the one payload on which the
handlers' destructuring throws a TypeError. -/
def Json.isNull : Json → Bool
  | .null => true
  | _ => false

/-- A todo record as handled by the server: the four fields set by the create
handler and compared by the lookup code. -/
structure Todo where
  id : Json
  title : Json
  body : Json
  createdAt : Json
deriving Repr

/-- The JSON payload written by `sendJSON` in each handler branch. -/
inductive RespBody where
  | record (t : Todo)
  | json (j : Json)
  | errorMsg (s : String)
  | successAck
deriving Repr

/-- Outcome of one handler run: HTTP status, response payload, and the
collection passed to `writeTodos` (`none` when no write happens). -/
structure HandlerResult where
  status : Nat
  response : RespBody
  written : Option (List Todo)
deriving Repr

/-- Truthiness of a query parameter (`String | null`): absent (`null`) and
the empty string are falsy. -/
def qtruthy : Option String → Bool
  | none => false
  | some s => s != ""

/-- The JS value of a query parameter when compared with `===` against a
parsed JSON field: absent is `null` (and JSON `null === null` holds). -/
def paramToJson : Option String → Json
  | none => .null
  | some s => .str s

/-- `makeId`: `Date.now()` and `Math.floor(Math.random()*10000)` joined by a
dash (the two numbers are parameters of the model). -/
def makeId (now rand : Nat) : String :=
  toString now ++ "-" ++ toString rand

/-- Exceptions reaching the server's catch block: the `Error("Invalid JSON")`
thrown by `parseBody`, a `SyntaxError` propagated by `JSON.parse` inside
`readTodos`, or the `TypeError` thrown when a handler destructures a null
payload (the latter two messages are never the string "Invalid JSON"). -/
inductive Thrown where
  | invalidJSON
  | syntaxError
  | typeError
deriving Repr

/-- The server's catch block: `err.message === "Invalid JSON"` becomes a 400
"Invalid JSON payload"; every other exception becomes a 500. -/
def catchAll : Thrown → HandlerResult
  | .invalidJSON => ⟨400, .errorMsg "Invalid JSON payload", none⟩
  | .syntaxError => ⟨500, .errorMsg "Internal Server Error", none⟩
  | .typeError => ⟨500, .errorMsg "Internal Server Error", none⟩

/-- GET `/todo` handler: find by `id` if the param is truthy, else by
`title`; 404 when nothing matches. -/
def getOne (idP titleP : Option String) (todos : List Todo) : HandlerResult :=
  let todo :=
    if qtruthy idP then todos.find? fun t => t.id.seq (paramToJson idP)
    else todos.find? fun t => t.title.seq (paramToJson titleP)
  match todo with
  | none => ⟨404, .errorMsg "Todo not found", none⟩
  | some t => ⟨200, .record t, none⟩

/-- POST `/todos/create-todo` handler: the destructuring
`const { title, body: todoBody } = body` throws a TypeError on a null
payload (shown here already routed through the catch block: 500, no write);
otherwise validation `!title || (!todoBody && todoBody !== "")`,
duplicate-title check, then append + write.  `newId` and `nowStr` stand for
`makeId()` and `new Date().toLocaleString()`. -/
def createTodo (payload : Json) (newId nowStr : String) (todos : List Todo) :
    HandlerResult :=
  if payload.isNull then catchAll .typeError
  else
  match payload.getKey "title", payload.getKey "body" with
  | some tj, some bj =>
    if !tj.truthy || (!bj.truthy && !(bj.seq (.str ""))) then
      ⟨400, .errorMsg "title and body are required", none⟩
    else if (todos.find? fun t => t.title.seq tj).isSome then
      ⟨409, .errorMsg "Todo with this title already exists", none⟩
    else
      let newTodo : Todo := ⟨.str newId, tj, bj, .str nowStr⟩
      ⟨201, .record newTodo, some (todos ++ [newTodo])⟩
  | _, _ =>
    -- either key undefined: `!title` or `(!todoBody && todoBody !== "")` holds
    ⟨400, .errorMsg "title and body are required", none⟩

/-- PATCH `/todos/update-todo` handler: the destructuring
`const { body: newBody } = payload` throws a TypeError on a null payload
(shown here already routed through the catch block: 500, no write);
otherwise reject when the payload has no `body` key, locate by `id` (if
truthy) else `title`, overwrite `body` in place, write, return the updated
record. -/
def updateTodo (idP titleP : Option String) (payload : Json)
    (todos : List Todo) : HandlerResult :=
  if payload.isNull then catchAll .typeError
  else
  match payload.getKey "body" with
  | none => ⟨400, .errorMsg "body is required in payload", none⟩
  | some newBody =>
    let idx :=
      if qtruthy idP then todos.findIdx? fun t => t.id.seq (paramToJson idP)
      else todos.findIdx? fun t => t.title.seq (paramToJson titleP)
    match idx with
    | none => ⟨404, .errorMsg "Todo not found", none⟩
    | some i =>
      match todos[i]? with
      | none => ⟨404, .errorMsg "Todo not found", none⟩ -- unreachable: findIdx? is in bounds
      | some t =>
        let t2 : Todo := { t with body := newBody }
        ⟨200, .record t2, some (todos.set i t2)⟩

/-- The delete handler's filter predicate
`(t) => (id ? t.id !== id : t.title !== titleParam)`: keep `t` when it does
not match the lookup key. -/
def keepAfterDelete (idP titleP : Option String) (t : Todo) : Bool :=
  if qtruthy idP then !(t.id.seq (paramToJson idP))
  else !(t.title.seq (paramToJson titleP))

/-- DELETE `/todos/delete-todo` handler: 400 when both params are falsy, else
filter out every match (by `id` if truthy, else `title`); 404 when the filter
removed nothing, otherwise write and acknowledge. -/
def deleteTodo (idP titleP : Option String) (todos : List Todo) :
    HandlerResult :=
  if !qtruthy idP && !qtruthy titleP then
    ⟨400, .errorMsg "id or title query param required", none⟩
  else
    let filtered := todos.filter (keepAfterDelete idP titleP)
    if filtered.length = todos.length then
      ⟨404, .errorMsg "Todo not found", none⟩
    else
      ⟨200, .successAck, some filtered⟩

/-- `readTodos`: the file content is `none` when the file does not exist
(ENOENT → `[]`); otherwise `JSON.parse(raw || "[]")`, whose SyntaxError
propagates. -/
def readTodos (jp : String → Option Json) (file : Option String) :
    Except Thrown Json :=
  match file with
  | none => .ok (.arr [])
  | some raw =>
    match jp (if raw = "" then "[]" else raw) with
    | some j => .ok j
    | none => .error .syntaxError

/-- `parseBody`: an empty raw request body resolves to `{}`; otherwise
`JSON.parse`, with a parse failure rejected as `Error("Invalid JSON")`. -/
def parseBody (jp : String → Option Json) (data : String) :
    Except Thrown Json :=
  if data = "" then .ok (.obj [])
  else
    match jp data with
    | some j => .ok j
    | none => .error .invalidJSON

/-- GET `/todos` route including the catch block: the parsed document is sent
back verbatim with 200, a load failure falls into the catch. -/
def runList (jp : String → Option Json) (file : Option String) :
    HandlerResult :=
  match readTodos jp file with
  | .ok j => ⟨200, .json j, none⟩
  | .error e => catchAll e

/-- Create route from the raw request body: `parseBody` then the create
handler, rejections going through the catch block. -/
def runCreate (jp : String → Option Json) (data : String)
    (newId nowStr : String) (todos : List Todo) : HandlerResult :=
  match parseBody jp data with
  | .ok payload => createTodo payload newId nowStr todos
  | .error e => catchAll e

/-- Update route from the raw request body: `parseBody` then the update
handler, rejections going through the catch block. -/
def runUpdate (jp : String → Option Json) (idP titleP : Option String)
    (data : String) (todos : List Todo) : HandlerResult :=
  match parseBody jp data with
  | .ok payload => updateTodo idP titleP payload todos
  | .error e => catchAll e

/-- A concrete record used by concrete-input theorems below. -/
def sampleTodo : Todo :=
  ⟨.str "i1", .str "b", .str "old", .str "d"⟩

/-- A concrete `JSON.parse` model used by concrete-input theorems below:
parses the literals `"[]"` and `"[0]"` and throws on everything else. -/
def jpSample : String → Option Json := fun s =>
  if s = "[]" then some (.arr [])
  else if s = "[0]" then some (.arr [.num 0])
  else none

-- quick sanity checks of the embedding on concrete inputs
example :
    createTodo (.obj [("title", .str "buy milk"), ("body", .str "")])
      "100-1" "d" [] =
    ⟨201, .record ⟨.str "100-1", .str "buy milk", .str "", .str "d"⟩,
      some [⟨.str "100-1", .str "buy milk", .str "", .str "d"⟩]⟩ := rfl

example :
    createTodo (.obj [("title", .str "a"), ("body", Json.null)]) "i" "d" []
      = ⟨400, .errorMsg "title and body are required", none⟩ := rfl

example :
    getOne (some "") (some "b")
      [⟨.str "x1", .str "b", .str "", .str "d"⟩] =
    ⟨200, .record ⟨.str "x1", .str "b", .str "", .str "d"⟩, none⟩ := rfl

example :
    deleteTodo (some "") none [⟨.str "x1", .str "b", .str "", .str "d"⟩] =
    ⟨400, .errorMsg "id or title query param required", none⟩ := rfl

/-! ## General lemmas about the embedded operations -/

/-- Strict equality against a string literal holds exactly for that string. -/
theorem Json.seq_str_iff (j : Json) (s : String) :
    j.seq (.str s) = true ↔ j = .str s := by
  cases j <;> simp [Json.seq]

/-- Strict inequality against a string literal. -/
theorem Json.seq_str_eq_false_iff (j : Json) (s : String) :
    j.seq (.str s) = false ↔ j ≠ .str s := by
  rw [← Bool.not_eq_true, not_iff_not]
  exact Json.seq_str_iff j s

/-- A payload with a readable property is not JSON null. -/
theorem Json.getKey_isNull {payload : Json} {k : String} {j : Json}
    (h : payload.getKey k = some j) : payload.isNull = false := by
  cases payload <;> simp_all [Json.getKey, Json.isNull]

/-- A generated id is a nonempty string (it contains the dash). -/
theorem makeId_ne_empty (now rand : Nat) : makeId now rand ≠ "" := by
  intro h
  have h2 := congrArg String.length h
  simp [makeId, String.length_append] at h2
  exact absurd h2.1.2 (by decide)

/-- The create handler's success path: both payload keys present, the
validation condition false, no duplicate title in the collection. -/
theorem createTodo_ok (payload : Json) (newId nowStr : String)
    (todos : List Todo) (tj bj : Json)
    (ht : payload.getKey "title" = some tj)
    (hb : payload.getKey "body" = some bj)
    (htru : tj.truthy = true) (hbok : bj.truthy = true ∨ bj = .str "")
    (hdup : (todos.find? fun r => r.title.seq tj) = none) :
    createTodo payload newId nowStr todos =
      ⟨201, .record ⟨.str newId, tj, bj, .str nowStr⟩,
        some (todos ++ [⟨.str newId, tj, bj, .str nowStr⟩])⟩ := by
  have hnull : payload.isNull = false := Json.getKey_isNull ht
  have hcond : (!tj.truthy || (!bj.truthy && !(bj.seq (.str "")))) = false := by
    rcases hbok with h | h
    · simp [htru, h]
    · subst h; simp [htru, Json.seq]
  simp [createTodo, hnull, ht, hb, hcond, hdup]

/-! ## Claim theorems -/

/-- Claim C1: a create request whose payload carries a non-empty title string
and a body string, against a loaded collection containing no record with that
title, appends exactly one record — generated id, the given title and body,
the creation timestamp — at the end of the collection, persists the appended
collection, and returns 201 with the new record. -/
theorem C1_create_appends_new_record
    (payload : Json) (now rand : Nat) (nowStr t b : String)
    (todos : List Todo)
    (ht : payload.getKey "title" = some (.str t)) (hne : t ≠ "")
    (hb : payload.getKey "body" = some (.str b))
    (hdup : (todos.all fun r => !(r.title.seq (.str t))) = true) :
    createTodo payload (makeId now rand) nowStr todos =
      ⟨201, .record ⟨.str (makeId now rand), .str t, .str b, .str nowStr⟩,
        some (todos ++
          [⟨.str (makeId now rand), .str t, .str b, .str nowStr⟩])⟩ := by
  apply createTodo_ok payload _ nowStr todos _ _ ht hb
  · simp [Json.truthy, hne]
  · by_cases hbe : b = ""
    · right; rw [hbe]
    · left; simp [Json.truthy, hbe]
  · rw [List.find?_eq_none]
    intro x hx
    have hax := (List.all_eq_true.mp hdup) x hx
    simpa using hax

/-- Concrete instance of C1: creating `{"title":"a","body":""}` on the empty
collection. -/
theorem C1_witness :
    createTodo (.obj [("title", .str "a"), ("body", .str "")])
        (makeId 100 1) "d" [] =
      ⟨201, .record ⟨.str (makeId 100 1), .str "a", .str "", .str "d"⟩,
        some ([] ++ [⟨.str (makeId 100 1), .str "a", .str "", .str "d"⟩])⟩ :=
  C1_create_appends_new_record _ 100 1 "d" "a" "" [] rfl (by decide) rfl rfl

/-- Claim C2: a create request that passes validation but whose loaded
collection already has a record with the same title returns 409 Conflict and
performs no write (the persisted collection is untouched). -/
theorem C2_create_duplicate_title_conflict
    (payload : Json) (newId nowStr : String) (todos : List Todo)
    (tj bj : Json)
    (ht : payload.getKey "title" = some tj)
    (hb : payload.getKey "body" = some bj)
    (htru : tj.truthy = true) (hbok : bj.truthy = true ∨ bj = .str "")
    (hdup : ∃ r ∈ todos, r.title.seq tj = true) :
    createTodo payload newId nowStr todos =
      ⟨409, .errorMsg "Todo with this title already exists", none⟩ := by
  have hcond : (!tj.truthy || (!bj.truthy && !(bj.seq (.str "")))) = false := by
    rcases hbok with h | h
    · simp [htru, h]
    · subst h; simp [htru, Json.seq]
  have hnull : payload.isNull = false := Json.getKey_isNull ht
  have hfind : (todos.find? fun r => r.title.seq tj).isSome = true :=
    List.find?_isSome.mpr hdup
  simp [createTodo, hnull, ht, hb, hcond, hfind]

/-- Concrete instance of C2: re-creating the already stored title "b". -/
theorem C2_witness :
    createTodo (.obj [("title", .str "b"), ("body", .str "x")]) "100-1" "d"
        [sampleTodo] =
      ⟨409, .errorMsg "Todo with this title already exists", none⟩ :=
  C2_create_duplicate_title_conflict _ _ _ _ _ _ rfl rfl rfl (Or.inl rfl)
    ⟨sampleTodo, by simp, rfl⟩

/-- Claim C3 counterexample: the payload `{"title":"a","body":null}` has a
non-empty title and its body key present, yet create rejects it with the 400
validation error (JS `!null && null !== ""` holds), contradicting "any
payload whose body key is present (with any value) is not rejected". -/
theorem C3_counterexample :
    (Json.obj [("title", .str "a"), ("body", .null)]).getKey "title"
        = some (.str "a") ∧
    (Json.obj [("title", .str "a"), ("body", .null)]).getKey "body"
        = some .null ∧
    createTodo (.obj [("title", .str "a"), ("body", .null)]) "100-1" "d" [] =
      ⟨400, .errorMsg "title and body are required", none⟩ :=
  ⟨rfl, rfl, rfl⟩

/-- Claim C3 amended: a payload that parsed to JSON null makes the
destructuring throw, answered as a 500 internal error with no write; for
every other payload, create fails with the 400 validation error exactly when
the title value is absent or falsy, or the body value is absent or falsy
without being the empty string (so `body: ""` passes, but `body: null`,
`body: false` and `body: 0` are rejected like an absent key). -/
theorem C3_create_validation_iff
    (payload : Json) (newId nowStr : String) (todos : List Todo) :
    createTodo .null newId nowStr todos =
      ⟨500, .errorMsg "Internal Server Error", none⟩ ∧
    ((createTodo payload newId nowStr todos).status = 400 ↔
      (payload ≠ .null ∧
        ((∀ j, payload.getKey "title" = some j → j.truthy = false) ∨
          ((∀ j, payload.getKey "body" = some j → j.truthy = false) ∧
            payload.getKey "body" ≠ some (.str ""))))) := by
  refine ⟨rfl, ?_⟩
  cases hn : payload.isNull with
  | true =>
    have hpn : payload = .null := by
      cases payload <;> simp_all [Json.isNull]
    subst hpn
    simp [createTodo, Json.isNull, catchAll]
  | false =>
    have hpn : payload ≠ .null := by
      intro h
      rw [h] at hn
      exact absurd hn (by simp [Json.isNull])
    rw [and_iff_right hpn]
    cases ht : payload.getKey "title" with
    | none => simp [createTodo, hn, ht]
    | some tj =>
      cases hb : payload.getKey "body" with
      | none => simp [createTodo, hn, ht, hb]
      | some bj =>
        cases hc : (!tj.truthy || (!bj.truthy && !(bj.seq (.str "")))) with
        | true =>
          have hL : (createTodo payload newId nowStr todos).status = 400 := by
            simp [createTodo, hn, ht, hb, hc]
          have hc2 : tj.truthy = false ∨
              (bj.truthy = false ∧ bj ≠ .str "") := by
            have hcc := hc
            simp only [Bool.or_eq_true, Bool.and_eq_true,
              Bool.not_eq_true'] at hcc
            rcases hcc with h | ⟨h1, h2⟩
            · exact Or.inl h
            · exact Or.inr ⟨h1, (Json.seq_str_eq_false_iff bj "").mp h2⟩
          refine iff_of_true hL ?_
          rcases hc2 with h | ⟨h1, h2⟩
          · exact Or.inl fun j hj => (Option.some.inj hj) ▸ h
          · exact Or.inr ⟨fun j hj => (Option.some.inj hj) ▸ h1,
              fun hj => h2 (Option.some.inj hj)⟩
        | false =>
          have htru : tj.truthy = true := by
            cases htj : tj.truthy
            · rw [htj] at hc; simp at hc
            · rfl
          have hL : (createTodo payload newId nowStr todos).status ≠ 400 := by
            cases hd : (todos.find? fun r => r.title.seq tj).isSome <;>
              simp [createTodo, hn, ht, hb, hc, hd]
          refine iff_of_false hL ?_
          rintro (h | ⟨h1, h2⟩)
          · exact absurd (h tj rfl) (by rw [htru]; simp)
          · have hb1 : bj.truthy = false := h1 bj rfl
            have hb2 : bj.seq (.str "") = false :=
              (Json.seq_str_eq_false_iff bj "").mpr fun he => h2 (by rw [he])
            rw [htru, hb1, hb2] at hc
            simp at hc

/-- Claim C9: every write preserves insertion order: a create writes the old
collection with one record appended at the end, an update writes the old
collection with a single position overwritten in place, and a delete writes a
sublist of the old collection (the surviving records in their old relative
order); a handler run that performs no write leaves the persisted collection
as it was. -/
theorem C9_operations_preserve_order
    (payload : Json) (newId nowStr : String) (idP titleP : Option String)
    (todos : List Todo) :
    ((createTodo payload newId nowStr todos).written = none ∨
      ∃ t, (createTodo payload newId nowStr todos).written
            = some (todos ++ [t])) ∧
    ((updateTodo idP titleP payload todos).written = none ∨
      ∃ i t2, (updateTodo idP titleP payload todos).written
            = some (todos.set i t2)) ∧
    ((deleteTodo idP titleP todos).written = none ∨
      ∃ l, (deleteTodo idP titleP todos).written = some l ∧
        l.Sublist todos) := by
  refine ⟨?_, ?_, ?_⟩
  · cases hn : payload.isNull with
    | true => exact Or.inl (by simp [createTodo, hn, catchAll])
    | false =>
      cases ht : payload.getKey "title" with
      | none => exact Or.inl (by simp [createTodo, hn, ht])
      | some tj =>
        cases hb : payload.getKey "body" with
        | none => exact Or.inl (by simp [createTodo, hn, ht, hb])
        | some bj =>
          cases hc : (!tj.truthy || (!bj.truthy && !(bj.seq (.str "")))) with
          | true => exact Or.inl (by simp [createTodo, hn, ht, hb, hc])
          | false =>
            cases hd : (todos.find? fun r => r.title.seq tj).isSome with
            | true =>
              exact Or.inl (by simp [createTodo, hn, ht, hb, hc, hd])
            | false =>
              exact Or.inr ⟨⟨.str newId, tj, bj, .str nowStr⟩,
                by simp [createTodo, hn, ht, hb, hc, hd]⟩
  · cases hn : payload.isNull with
    | true => exact Or.inl (by simp [updateTodo, hn, catchAll])
    | false =>
      cases hb : payload.getKey "body" with
      | none => exact Or.inl (by simp [updateTodo, hn, hb])
      | some v =>
        cases hidx : (if qtruthy idP then
            todos.findIdx? fun t => t.id.seq (paramToJson idP)
          else todos.findIdx? fun t => t.title.seq (paramToJson titleP)) with
        | none => exact Or.inl (by simp [updateTodo, hn, hb, hidx])
        | some i =>
          cases hget : todos[i]? with
          | none => exact Or.inl (by simp [updateTodo, hn, hb, hidx, hget])
          | some t =>
            exact Or.inr ⟨i, { t with body := v },
              by simp [updateTodo, hn, hb, hidx, hget]⟩
  · cases hg : (!qtruthy idP && !qtruthy titleP) with
    | true => exact Or.inl (by simp [deleteTodo, hg])
    | false =>
      by_cases hl : (todos.filter (keepAfterDelete idP titleP)).length
          = todos.length
      · exact Or.inl (by simp [deleteTodo, hg, hl])
      · exact Or.inr ⟨todos.filter (keepAfterDelete idP titleP),
          by simp [deleteTodo, hg, hl], List.filter_sublist todos⟩

/-- Claim C10: an entirely empty raw request body parses to the empty object
(no malformed-payload error); hence create on an empty body returns the 400
"title and body are required" validation error and update on an empty body
returns the 400 "body is required in payload" error. -/
theorem C10_empty_body_yields_empty_object
    (jp : String → Option Json) (newId nowStr : String)
    (idP titleP : Option String) (todos : List Todo) :
    parseBody jp "" = .ok (.obj []) ∧
    runCreate jp "" newId nowStr todos =
      ⟨400, .errorMsg "title and body are required", none⟩ ∧
    runUpdate jp idP titleP "" todos =
      ⟨400, .errorMsg "body is required in payload", none⟩ := by
  refine ⟨rfl, ?_, ?_⟩
  · simp [runCreate, parseBody, createTodo, Json.isNull, Json.getKey]
  · simp [runUpdate, parseBody, updateTodo, Json.isNull, Json.getKey]

/-- If every element fails the predicate (as a boolean `all`), `find?` comes
up empty. -/
theorem find?_eq_none_of_all_not {α} (l : List α) (p : α → Bool)
    (h : (l.all fun x => !p x) = true) : l.find? p = none := by
  rw [List.find?_eq_none]
  intro x hx
  have hax := (List.all_eq_true.mp h) x hx
  simpa using hax

/-- With a truthy id parameter, the delete filter predicate does not consult
the title parameter. -/
theorem keepAfterDelete_id_wins (idP tP tP' : Option String)
    (hq : qtruthy idP = true) :
    keepAfterDelete idP tP = keepAfterDelete idP tP' := by
  funext t
  simp [keepAfterDelete, hq]

/-- An id parameter supplied as the empty string and an absent id parameter
give the same delete filter predicate. -/
theorem keepAfterDelete_empty_id (tP : Option String) :
    keepAfterDelete (some "") tP = keepAfterDelete none tP := by
  funext t
  simp [keepAfterDelete, qtruthy]

/-- Claim C4 counterexample: with both params supplied as `?id=&title=b`, the
supplied empty id is falsy, so the lookup proceeds by title and succeeds
(200 with the matching record); a lookup by the id `""` would have matched
nothing (404 when the title is dropped) — so the lookup is not performed by
id and the title is not ignored. -/
theorem C4_counterexample :
    (getOne (some "") (some "b") [sampleTodo]).status = 200 ∧
    (getOne (some "") (some "b") [sampleTodo]).response
        = .record sampleTodo ∧
    (getOne (some "") none [sampleTodo]).status = 404 :=
  ⟨rfl, rfl, rfl⟩

/-- Claim C4 amended: for get-one, update and delete, when the id query
parameter is supplied non-empty the lookup is by id and the title parameter
is ignored; an id supplied as the empty string is treated like an absent id,
the lookup falling back to the title parameter. -/
theorem C4_id_precedence_when_nonempty
    (i : String) (hne : i ≠ "") (tP tP' : Option String) (payload : Json)
    (todos : List Todo) :
    (getOne (some i) tP todos = getOne (some i) tP' todos ∧
      updateTodo (some i) tP payload todos
        = updateTodo (some i) tP' payload todos ∧
      deleteTodo (some i) tP todos = deleteTodo (some i) tP' todos) ∧
    (getOne (some "") tP todos = getOne none tP todos ∧
      updateTodo (some "") tP payload todos
        = updateTodo none tP payload todos ∧
      deleteTodo (some "") tP todos = deleteTodo none tP todos) := by
  have hq : qtruthy (some i) = true := by simp [qtruthy, hne]
  refine ⟨⟨?_, ?_, ?_⟩, ?_, ?_, ?_⟩
  · simp [getOne, hq]
  · cases hn : payload.isNull with
    | true => simp [updateTodo, hn]
    | false =>
      cases hbk : payload.getKey "body" <;> simp [updateTodo, hn, hbk, hq]
  · simp [deleteTodo, keepAfterDelete_id_wins (some i) tP tP' hq, hq]
  · simp [getOne, qtruthy]
  · cases hn : payload.isNull with
    | true => simp [updateTodo, hn]
    | false =>
      cases hbk : payload.getKey "body" <;>
        simp [updateTodo, hn, hbk, qtruthy]
  · simp [deleteTodo, keepAfterDelete_empty_id tP, qtruthy]

/-- Concrete instance of the amended C4: with a non-empty id, dropping the
title parameter does not change the get-one outcome. -/
theorem C4_witness :
    getOne (some "x") (some "b") [sampleTodo]
      = getOne (some "x") none [sampleTodo] :=
  (C4_id_precedence_when_nonempty "x" (by decide) (some "b") none
    (.obj []) [sampleTodo]).1.1

/-- Claim C5: a successful update at position `i` overwrites only the body
field of the record there: id, title and createdAt keep their values, the
record keeps its position, every other position is untouched, the length is
unchanged, the written collection is the old one with position `i`
overwritten, and the response is 200 with the updated record. -/
theorem C5_update_modifies_only_body
    (idP titleP : Option String) (payload : Json) (todos : List Todo)
    (v : Json) (i : Nat) (t : Todo)
    (hbk : payload.getKey "body" = some v)
    (hidx : (if qtruthy idP then
        todos.findIdx? fun r => r.id.seq (paramToJson idP)
      else todos.findIdx? fun r => r.title.seq (paramToJson titleP))
        = some i)
    (hget : todos[i]? = some t) :
    updateTodo idP titleP payload todos =
      ⟨200, .record ⟨t.id, t.title, v, t.createdAt⟩,
        some (todos.set i ⟨t.id, t.title, v, t.createdAt⟩)⟩ ∧
    (todos.set i ⟨t.id, t.title, v, t.createdAt⟩).length = todos.length ∧
    (todos.set i ⟨t.id, t.title, v, t.createdAt⟩)[i]?
        = some ⟨t.id, t.title, v, t.createdAt⟩ ∧
    ∀ j, j ≠ i → (todos.set i ⟨t.id, t.title, v, t.createdAt⟩)[j]?
        = todos[j]? := by
  have hnull : payload.isNull = false := Json.getKey_isNull hbk
  have hlt : i < todos.length := by
    rcases List.getElem?_eq_some_iff.mp hget with ⟨h, _⟩
    exact h
  refine ⟨?_, List.length_set .., List.getElem?_set_self (by simpa), ?_⟩
  · simp [updateTodo, hnull, hbk, hidx, hget]
  · intro j hj
    exact List.getElem?_set_ne (Ne.symm hj)

/-- Concrete instance of C5: updating the body of the stored record by id. -/
theorem C5_witness :
    updateTodo (some "i1") none (.obj [("body", .str "new")]) [sampleTodo] =
      ⟨200, .record ⟨sampleTodo.id, sampleTodo.title, .str "new",
          sampleTodo.createdAt⟩,
        some ([sampleTodo].set 0 ⟨sampleTodo.id, sampleTodo.title,
          .str "new", sampleTodo.createdAt⟩)⟩ :=
  (C5_update_modifies_only_body (some "i1") none
    (.obj [("body", .str "new")]) [sampleTodo] (.str "new") 0 sampleTodo
    rfl rfl rfl).1

/-- Claim C6 counterexample: `DELETE /todos/delete-todo?id=` supplies an id
query parameter (the empty string, matching no stored record), but the
handler answers 400 "id or title query param required" instead of the 404
the claim requires for a supplied key that matches nothing. -/
theorem C6_counterexample :
    deleteTodo (some "") none [sampleTodo] =
      ⟨400, .errorMsg "id or title query param required", none⟩ ∧
    sampleTodo.id.seq (paramToJson (some "")) = false ∧
    (400 : Nat) ≠ 404 :=
  ⟨rfl, rfl, by decide⟩

/-- Claim C6 amended: for a delete request supplying a non-empty id or a
non-empty title (parameters supplied as the empty string count as absent and
alone yield the 400 branch), every record matching the key — by id when a
non-empty id is given, else by title — is removed: if nothing matched the
handler returns 404 and writes nothing, otherwise it writes exactly the
filtered collection, whose surviving records keep their relative order, and
returns 200 with the success acknowledgment. -/
theorem C6_delete_filters_matches
    (idP titleP : Option String) (todos : List Todo)
    (h : qtruthy idP = true ∨ qtruthy titleP = true) :
    ((todos.filter (keepAfterDelete idP titleP)).length = todos.length →
      deleteTodo idP titleP todos =
        ⟨404, .errorMsg "Todo not found", none⟩) ∧
    ((todos.filter (keepAfterDelete idP titleP)).length ≠ todos.length →
      deleteTodo idP titleP todos =
        ⟨200, .successAck,
          some (todos.filter (keepAfterDelete idP titleP))⟩) ∧
    (todos.filter (keepAfterDelete idP titleP)).Sublist todos := by
  have hg : (!qtruthy idP && !qtruthy titleP) = false := by
    rcases h with h | h <;> simp [h]
  refine ⟨fun hl => ?_, fun hl => ?_, List.filter_sublist todos⟩
  · simp [deleteTodo, hg, hl]
  · simp [deleteTodo, hg, hl]

/-- Concrete instance of the amended C6: deleting the stored record by id. -/
theorem C6_witness :
    deleteTodo (some "i1") none [sampleTodo] =
      ⟨200, .successAck,
        some ([sampleTodo].filter (keepAfterDelete (some "i1") none))⟩ :=
  (C6_delete_filters_matches (some "i1") none [sampleTodo]
    (Or.inl rfl)).2.1 (by decide)

/-- Claim C7: when the generated id and the given title occur nowhere in the
prior collection (ids and titles stay unique), a successful create returns a
record `r`, and on the persisted collection get-one by `r`'s id and get-one
by `r`'s title both answer 200 with that same record `r`. -/
theorem C7_get_by_id_eq_get_by_title
    (payload : Json) (now rand : Nat) (nowStr t b : String)
    (todos : List Todo)
    (ht : payload.getKey "title" = some (.str t)) (hne : t ≠ "")
    (hb : payload.getKey "body" = some (.str b))
    (hidsU : (todos.all fun r =>
      !(r.id.seq (.str (makeId now rand)))) = true)
    (htitlesU : (todos.all fun r => !(r.title.seq (.str t))) = true) :
    createTodo payload (makeId now rand) nowStr todos =
      ⟨201, .record ⟨.str (makeId now rand), .str t, .str b, .str nowStr⟩,
        some (todos ++
          [⟨.str (makeId now rand), .str t, .str b, .str nowStr⟩])⟩ ∧
    getOne (some (makeId now rand)) none
        (todos ++ [⟨.str (makeId now rand), .str t, .str b, .str nowStr⟩]) =
      ⟨200, .record ⟨.str (makeId now rand), .str t, .str b, .str nowStr⟩,
        none⟩ ∧
    getOne none (some t)
        (todos ++ [⟨.str (makeId now rand), .str t, .str b, .str nowStr⟩]) =
      ⟨200, .record ⟨.str (makeId now rand), .str t, .str b, .str nowStr⟩,
        none⟩ := by
  have htru : (Json.str t).truthy = true := by simp [Json.truthy, hne]
  have hbok : (Json.str b).truthy = true ∨ Json.str b = .str "" := by
    by_cases hbe : b = ""
    · right; rw [hbe]
    · left; simp [Json.truthy, hbe]
  have hnoneT := find?_eq_none_of_all_not todos
    (fun r => r.title.seq (.str t)) htitlesU
  have hnoneI := find?_eq_none_of_all_not todos
    (fun r => r.id.seq (.str (makeId now rand))) hidsU
  have hq : qtruthy (some (makeId now rand)) = true := by
    simp [qtruthy]
    exact makeId_ne_empty now rand
  refine ⟨createTodo_ok _ _ _ _ _ _ ht hb htru hbok hnoneT, ?_, ?_⟩
  · have hfind : List.find?
        (fun x => x.id.seq (paramToJson (some (makeId now rand))))
        (todos ++ [⟨.str (makeId now rand), .str t, .str b, .str nowStr⟩])
        = some ⟨.str (makeId now rand), .str t, .str b, .str nowStr⟩ := by
      rw [List.find?_append]
      have hn : List.find?
          (fun x => x.id.seq (paramToJson (some (makeId now rand))))
          todos = none := by
        simpa [paramToJson] using hnoneI
      rw [hn, Option.none_or, List.find?_cons_of_pos]
      simp [paramToJson, Json.seq]
    simp [getOne, hq, hfind]
  · have hfind2 : List.find? (fun x => x.title.seq (paramToJson (some t)))
        (todos ++ [⟨.str (makeId now rand), .str t, .str b, .str nowStr⟩])
        = some ⟨.str (makeId now rand), .str t, .str b, .str nowStr⟩ := by
      rw [List.find?_append]
      have hn : List.find? (fun x => x.title.seq (paramToJson (some t)))
          todos = none := by
        simpa [paramToJson] using hnoneT
      rw [hn, Option.none_or, List.find?_cons_of_pos]
      simp [paramToJson, Json.seq]
    simp [getOne, qtruthy, hfind2]

/-- Concrete instance of C7: create on the empty collection, then fetch the
new record by its generated id. -/
theorem C7_witness :
    getOne (some (makeId 100 1)) none
        ([] ++ [⟨.str (makeId 100 1), .str "a", .str "", .str "d"⟩]) =
      ⟨200, .record ⟨.str (makeId 100 1), .str "a", .str "", .str "d"⟩,
        none⟩ :=
  (C7_get_by_id_eq_get_by_title (.obj [("title", .str "a"),
    ("body", .str "")]) 100 1 "d" "a" "" [] rfl (by decide) rfl rfl rfl).2.1

/-- Claim C8: the load yields the empty collection when the document is
absent and when its content is the empty string; a nonempty content that
does not parse makes the load fail with the propagated SyntaxError, which
the route surfaces as a 500 Internal Server Error; a nonempty content that
parses is returned exactly as parsed, with no schema coercion. -/
theorem C8_readTodos_spec (jp : String → Option Json)
    (hjp : jp "[]" = some (.arr [])) :
    readTodos jp none = .ok (.arr []) ∧
    readTodos jp (some "") = .ok (.arr []) ∧
    (∀ raw, raw ≠ "" → jp raw = none →
      readTodos jp (some raw) = .error .syntaxError ∧
      runList jp (some raw) =
        ⟨500, .errorMsg "Internal Server Error", none⟩) ∧
    (∀ raw j, raw ≠ "" → jp raw = some j →
      readTodos jp (some raw) = .ok j ∧
      runList jp (some raw) = ⟨200, .json j, none⟩) := by
  refine ⟨rfl, ?_, ?_, ?_⟩
  · simp [readTodos, hjp]
  · intro raw hraw hp
    constructor
    · simp [readTodos, hraw, hp]
    · simp [runList, readTodos, hraw, hp, catchAll]
  · intro raw j hraw hp
    constructor
    · simp [readTodos, hraw, hp]
    · simp [runList, readTodos, hraw, hp]

/-- Concrete instance of C8 under the sample parse function: absent file,
empty file, unparseable file, and parseable file. -/
theorem C8_witness :
    readTodos jpSample none = .ok (.arr []) ∧
    readTodos jpSample (some "") = .ok (.arr []) ∧
    runList jpSample (some "oops") =
      ⟨500, .errorMsg "Internal Server Error", none⟩ ∧
    readTodos jpSample (some "[0]") = .ok (.arr [.num 0]) := by
  have h := C8_readTodos_spec jpSample rfl
  exact ⟨h.1, h.2.1, (h.2.2.1 "oops" (by decide) rfl).2,
    (h.2.2.2 "[0]" (.arr [.num 0]) (by decide) rfl).1⟩

end VanillaTodo
